import Mathlib

/-!
Verification of the pump control subsystem of the sugar-house monitor.

The definitions below are a shallow embedding of `scripts/main_pump.py`
(classes `PumpController`, `PumpRelay`, `PumpRelayWorker`) and of
`scripts/pump_controller.py` (`CachedSignalReader`).  Timestamps and the
configured thresholds are modelled as integers (every claim concerns only
ordered comparisons and differences of times), the derived flow rate keeps
its exact rational value, and `time.time()` is passed in explicitly as
`now` with one value per controller poll, matching the atomic-poll
contract of the spec.  Persistence and logging side effects are returned
as lists of emitted pump events and log messages.
-/

/-- The pumping state machine enum: `"not_pumping" | "pumping" | "manual_pumping"`. -/
inductive PState where
  | notPumping
  | pumping
  | manualPumping
deriving DecidableEq

/-- Pump event types written to the event sink. -/
inductive EventType where
  | autoPumpStart
  | manualPumpStart
  | pumpStop
  | fatalError
deriving DecidableEq

/-- A pump event payload, as built by the controller
(`source_timestamp` strings are omitted; they carry no logic). -/
structure PumpEvent where
  event_type : EventType
  pump_run_time_s : Option ℤ
  pump_interval_s : Option ℤ
  gallons_per_hour : Option ℚ
deriving DecidableEq

/-- The `PumpState` dataclass of `main_pump.py`. -/
structure PumpState where
  current_state : PState := PState.notPumping
  fatal_error : Bool := false
  fatal_sent : Bool := false
  pump_start_time : Option ℤ := none
  pump_end_time : Option ℤ := none
  last_stop_time : Option ℤ := none
  last_fill_time : Option ℤ := none
  last_flow_rate : Option ℚ := none
  last_error_message : Option String := none
  last_error_log_time : Option ℤ := none
  error_started_at : Option ℤ := none
  last_error_count_logged : Option ℤ := none
  adc_stale_started_at : Option ℤ := none
deriving DecidableEq

/-- `PumpState()` with the dataclass defaults. -/
def PumpState.initial : PumpState := {}

/-- The debounced boolean channels of one `read_signals()` snapshot. -/
structure Signals where
  tank_full : Bool
  manual_start : Bool
  tank_empty : Bool
  service_on : Bool
  service_off : Bool
  clear_fatal : Bool
deriving DecidableEq

/-- The controller configuration values used by the modelled code paths. -/
structure Config where
  error_threshold : ℤ
  adc_stale_fatal_seconds : ℤ
  control_hold_seconds : ℤ
deriving DecidableEq

/-- State, emitted pump events, emitted error-log messages. -/
abbrev StepResult := PumpState × List PumpEvent × List String

/-- `PumpController._format_error_message`. -/
def format_error_message (s : PumpState) (message : String) : String :=
  if s.fatal_error && !(String.startsWith message ("[FATAL ERROR]")) then
    ("[FATAL ERROR] ") ++ message
  else message

/-- `PumpController._record_error`: dedup (same text within 1 s dropped), then
append to the error sink.  Returns the updated state and the appended lines. -/
def record_error (now : ℤ) (s : PumpState) (message0 : String) : PumpState × List String :=
  let message := format_error_message s message0
  let out : Option String × Option ℤ × List String :=
    if some message ≠ s.last_error_message then
      (some message, some now, [message])
    else
      match s.last_error_log_time with
      | none => (s.last_error_message, some now, [message])
      | some last =>
        if now - last ≥ 1 then (s.last_error_message, some now, [message])
        else (s.last_error_message, s.last_error_log_time, [])
  ({ s with last_error_message := out.1, last_error_log_time := out.2.1 }, out.2.2)

/-- The `Fatal Error` event payload inserted by `_handle_fatal`. -/
def fatalEvent : PumpEvent :=
  { event_type := EventType.fatalError
    pump_run_time_s := none
    pump_interval_s := none
    gallons_per_hour := none }

/-- `PumpController._handle_fatal`. -/
def handle_fatal (now : ℤ) (s : PumpState) : StepResult :=
  let r1 : PumpState × List String :=
    if s.fatal_error then (s, [])
    else
      record_error now
        { s with fatal_error := true, current_state := PState.notPumping,
                 pump_start_time := none }
        ("FATAL ERROR: STOPPING")
  if r1.1.fatal_sent then (r1.1, [], r1.2)
  else ({ r1.1 with fatal_sent := true }, [fatalEvent], r1.2)

/-- `PumpController._increment_error`. -/
def increment_error (cfg : Config) (now : ℤ) (s : PumpState) (message : Option String) :
    StepResult :=
  let s1 := if s.error_started_at = none then { s with error_started_at := some now } else s
  let r1 : PumpState × List String :=
    match message with
    | some m => record_error now s1 m
    | none => (s1, [])
  match r1.1.error_started_at with
  | none => (r1.1, [], r1.2)
  | some t0 =>
    let error_count := now - t0
    let s3 :=
      if 0 < error_count ∧ some error_count ≠ r1.1.last_error_count_logged then
        { r1.1 with last_error_count_logged := some error_count }
      else r1.1
    if now - t0 ≥ cfg.error_threshold then
      let r2 := handle_fatal now s3
      (r2.1, r2.2.1, r1.2 ++ r2.2.2)
    else (s3, [], r1.2)

/-- `PumpController._pump_stop` (its `current_state` argument is unused in the source). -/
def pump_stop (now : ℤ) (s : PumpState) (_current_state : PState) : StepResult :=
  let r1 : PumpState × Option ℤ × List String :=
    match s.pump_start_time with
    | some t => (s, some (max 0 (now - t)), [])
    | none =>
      let rc := record_error now s ("WARNING: Missing valid start time for pump event")
      (rc.1, none, rc.2)
  let pump_interval : Option ℤ :=
    match r1.1.last_stop_time with
    | some t => some (max 0 (now - t))
    | none => none
  ({ r1.1 with pump_end_time := some now, last_stop_time := some now,
               pump_start_time := none },
   [{ event_type := EventType.pumpStop
      pump_run_time_s := r1.2.1
      pump_interval_s := pump_interval
      gallons_per_hour := r1.1.last_flow_rate }],
   r1.2.2)

/-- `PumpController._tank_full_event_handling`. -/
def tank_full_event_handling (now : ℤ) (s : PumpState) (event_type : EventType) :
    StepResult :=
  let s1 := if s.pump_start_time = none then { s with pump_start_time := some now } else s
  match s1.pump_end_time with
  | some te =>
    let fill_time := max 0 (now - te)
    let flow_rate : Option ℚ :=
      if 0 < fill_time then some (1218 / 100 / (fill_time : ℚ) * 3600) else none
    ({ s1 with last_fill_time := some fill_time, last_flow_rate := flow_rate,
               pump_end_time := none },
     [{ event_type := event_type
        pump_run_time_s := none
        pump_interval_s := some fill_time
        gallons_per_hour := flow_rate }],
     [])
  | none =>
    let rc := record_error now s1 ("WARNING:tank full & started pumping but no pump_end_time")
    (rc.1,
     [{ event_type := event_type
        pump_run_time_s := none
        pump_interval_s := none
        gallons_per_hour := none }],
     rc.2)

/-- `PumpController._manual_start`. -/
def manual_start (now : ℤ) (s : PumpState) : StepResult :=
  let s1 := if s.pump_start_time = none then { s with pump_start_time := some now } else s
  ({ s1 with pump_end_time := none, last_fill_time := none, last_flow_rate := none },
   [{ event_type := EventType.manualPumpStart
      pump_run_time_s := none
      pump_interval_s := none
      gallons_per_hour := none }],
   [])

/-- `PumpController._reset_error_timer`. -/
def reset_error_timer (s : PumpState) : PumpState :=
  { s with error_started_at := none, last_error_count_logged := none,
           adc_stale_started_at := none }

/-- `PumpController._increment_adc_stale` (the body of `_handle_adc_stale`). -/
def increment_adc_stale (cfg : Config) (now : ℤ) (s : PumpState) (message : String) :
    StepResult :=
  let s1 :=
    if s.adc_stale_started_at = none then { s with adc_stale_started_at := some now } else s
  let r1 := record_error now s1 message
  let prev_state := r1.1.current_state
  let r2 : StepResult :=
    if prev_state = PState.pumping ∨ prev_state = PState.manualPumping then
      pump_stop now { r1.1 with current_state := PState.notPumping } prev_state
    else (r1.1, [], [])
  match r2.1.adc_stale_started_at with
  | some t0 =>
    if now - t0 ≥ cfg.adc_stale_fatal_seconds then
      let r3 := handle_fatal now r2.1
      (r3.1, r2.2.1 ++ r3.2.1, r1.2 ++ r2.2.2 ++ r3.2.2)
    else (r2.1, r2.2.1, r1.2 ++ r2.2.2)
  | none => (r2.1, r2.2.1, r1.2 ++ r2.2.2)

/-- `PumpController.clear_fatal_error`. -/
def clear_fatal_error (now : ℤ) (s : PumpState) : PumpState × List String :=
  if s.fatal_error then
    let s1 := reset_error_timer { s with fatal_error := false, fatal_sent := false }
    record_error now s1 ("Cleared fatal error state")
  else (s, [])

/-- The error-threshold test performed at the top of `_apply_signals`. -/
def error_guard (cfg : Config) (now : ℤ) (s : PumpState) : Bool :=
  match s.error_started_at with
  | some t => now - t ≥ cfg.error_threshold
  | none => false

/-- `PumpController._apply_signals`: one evaluation of the truth table. -/
def apply_signals (cfg : Config) (now : ℤ) (s : PumpState) (signals : Signals) :
    StepResult :=
  if s.fatal_error then handle_fatal now s
  else if error_guard cfg now s then handle_fatal now s
  else
    let p1 := signals.tank_full
    let p2 := signals.manual_start
    let p3 := signals.tank_empty
    let state := s.current_state
    if !p1 && !p2 && !p3 then
      (reset_error_timer s, [], [])
    else if p1 && p2 && p3 then
      let msg :=
        if state = PState.pumping then
          ("ERROR: received simultaneous tank empty, manual start, and tank full signals while auto pumping")
        else if state = PState.manualPumping then
          ("ERROR: received simultaneous tank empty, manual start, and tank full signals while manual pumping")
        else
          ("ERROR: received simultaneous tank empty, manual start, and tank full signals while not pumping")
      let r := increment_error cfg now s (some msg)
      if state = PState.notPumping then
        ({ r.1 with current_state := PState.pumping }, r.2.1, r.2.2)
      else r
    else if p1 && !p2 && p3 then
      let msg :=
        if state = PState.manualPumping then
          ("ERROR: received simultaneous tank empty and tank full signals while manual pumping")
        else if state = PState.notPumping then
          ("ERROR: received simultaneous tank empty and tank full signals while not pumping")
        else
          ("ERROR: received simultaneous tank empty and tank full signals while auto pumping")
      let s0 := if state = PState.notPumping then { s with current_state := PState.pumping } else s
      increment_error cfg now s0 (some msg)
    else if !p1 && p2 && p3 then
      let msg :=
        if state = PState.manualPumping then
          ("WARNING: received simultaneous tank empty and manual pump start signals while manual pumping")
        else if state = PState.notPumping then
          ("WARNING: received simultaneous tank empty and manual pump start signals while not pumping")
        else
          ("WARNING: received simultaneous tank empty and manual pump start signals while auto pumping")
      let rc := record_error now (reset_error_timer s) msg
      let s2 := { rc.1 with current_state := PState.notPumping }
      if state = PState.pumping ∨ state = PState.manualPumping then
        let r := pump_stop now s2 state
        (r.1, r.2.1, rc.2 ++ r.2.2)
      else (s2, [], rc.2)
    else if p1 && p2 && !p3 then
      if state = PState.pumping then
        increment_error cfg now s
          (some ("WARNING: received simultaneous tank full and manual start signals while auto pumping"))
      else if state = PState.manualPumping then
        let r := increment_error cfg now s
          (some ("WARNING: received simultaneous tank full and manual start signals while manually pumping"))
        let r2 := tank_full_event_handling now { r.1 with current_state := PState.pumping }
          EventType.autoPumpStart
        (r2.1, r.2.1 ++ r2.2.1, r.2.2 ++ r2.2.2)
      else
        let r := increment_error cfg now s
          (some ("WARNING: received simultaneous tank full and manual start signals while not pumping"))
        let r2 := tank_full_event_handling now { r.1 with current_state := PState.pumping }
          EventType.autoPumpStart
        (r2.1, r.2.1 ++ r2.2.1, r.2.2 ++ r2.2.2)
    else if p1 && !p2 && !p3 then
      if state = PState.pumping then
        increment_error cfg now s (some ("WARNING: received tank full signal while auto pumping"))
      else if state = PState.manualPumping then
        let r := increment_error cfg now s
          (some ("WARNING: received tank full signal while manual pumping"))
        let r2 := tank_full_event_handling now { r.1 with current_state := PState.pumping }
          EventType.autoPumpStart
        (r2.1, r.2.1 ++ r2.2.1, r.2.2 ++ r2.2.2)
      else
        let s1 := reset_error_timer s
        let r2 := tank_full_event_handling now { s1 with current_state := PState.pumping }
          EventType.autoPumpStart
        (r2.1, r2.2.1, r2.2.2)
    else if !p1 && p2 && !p3 then
      if state = PState.pumping then
        let rc := record_error now (reset_error_timer s)
          ("WARNING: received manual pump signal while auto pumping")
        (rc.1, [], rc.2)
      else if state = PState.manualPumping then
        (reset_error_timer s, [], [])
      else
        let s1 := reset_error_timer s
        manual_start now { s1 with current_state := PState.manualPumping }
    else if !p1 && !p2 && p3 then
      let s1 := reset_error_timer s
      let r : StepResult :=
        if state = PState.pumping ∨ state = PState.manualPumping then
          pump_stop now { s1 with current_state := PState.notPumping } state
        else ({ s1 with pump_end_time := some now }, [], [])
      let s3 := if r.1.pump_end_time = none then { r.1 with pump_end_time := some now } else r.1
      (s3, r.2.1, r.2.2)
    else
      if error_guard cfg now s then handle_fatal now s else (s, [], [])

/-- One input to the controller poll loop `PumpController._run`: either a
successful debounced read, or an `ADCStaleError`. -/
inductive PollInput where
  | ok (signals : Signals)
  | stale (message : String)

/-- One iteration of the controller poll loop `PumpController._run`, restricted
to the state-machine path (a successful read clears `adc_stale_started_at`
before `_apply_signals` runs; a stale read runs `_increment_adc_stale`).
The control-hold actions are modelled separately by `handle_control_holds`. -/
def poll (cfg : Config) (now : ℤ) (s : PumpState) : PollInput → StepResult
  | PollInput.ok signals =>
    apply_signals cfg now { s with adc_stale_started_at := none } signals
  | PollInput.stale message => increment_adc_stale cfg now s message

/-- A sequence of poll-loop iterations; collects all emitted pump events. -/
def run_polls (cfg : Config) : List (ℤ × PollInput) → PumpState → PumpState × List PumpEvent
  | [], s => (s, [])
  | (now, inp) :: rest, s =>
    let r := poll cfg now s inp
    let r2 := run_polls cfg rest r.1
    (r2.1, r.2.1 ++ r2.2)

/-- One `ControlHoldTimer`: `_control_hold_start[key]` and `_control_hold_fired[key]`. -/
structure HoldState where
  hold_start : Option ℤ
  fired : Bool
deriving DecidableEq

/-- One channel of `PumpController._handle_control_holds`: returns the updated
timer and whether the bound action was invoked on this iteration. -/
def control_hold_step (hold_seconds now : ℤ) (is_high : Bool) (h : HoldState) :
    HoldState × Bool :=
  if is_high then
    let start := h.hold_start.getD now
    if h.fired = false ∧ now - start ≥ hold_seconds then
      ({ hold_start := some start, fired := true }, true)
    else ({ hold_start := some start, fired := h.fired }, false)
  else ({ hold_start := none, fired := false }, false)

/-- The three independent hold timers of the controller. -/
structure ControlHolds where
  service_on : HoldState
  service_off : HoldState
  clear_fatal : HoldState
deriving DecidableEq

/-- `PumpController._handle_control_holds`: each channel is stepped
independently; the booleans report which bound actions fired. -/
def handle_control_holds (hold_seconds now : ℤ) (signals : Signals) (c : ControlHolds) :
    ControlHolds × Bool × Bool × Bool :=
  let r1 := control_hold_step hold_seconds now signals.service_on c.service_on
  let r2 := control_hold_step hold_seconds now signals.service_off c.service_off
  let r3 := control_hold_step hold_seconds now signals.clear_fatal c.clear_fatal
  ({ service_on := r1.1, service_off := r2.1, clear_fatal := r3.1 }, r1.2, r2.2, r3.2)

/-- A sequence of iterations of one hold channel over sampled
`(time, debounced level)` pairs; counts how often the action fired. -/
def run_hold (hold_seconds : ℤ) : List (ℤ × Bool) → HoldState → HoldState × ℕ
  | [], h => (h, 0)
  | (now, level) :: rest, h =>
    let r := control_hold_step hold_seconds now level h
    let r2 := run_hold hold_seconds rest r.1
    (r2.1, (if r.2 then 1 else 0) + r2.2)

/-- `PumpRelay.__init__`: `GPIO.setup(pin, OUT, initial=LOW)`. -/
def PumpRelay.initial_output : Bool := false

/-- `PumpRelay.cleanup`: drives the output LOW irrespective of its prior value. -/
def PumpRelay.cleanup_output (_previous : Bool) : Bool := false

/-- One `PumpRelayWorker._run` iteration: the value commanded to the relay from
a snapshot of the controller state. -/
def relay_worker_tick (s : PumpState) : Bool :=
  decide (s.current_state = PState.pumping ∨ s.current_state = PState.manualPumping)
    && !s.fatal_error

/-- Association-list lookup-preserving model of `dict.setdefault`. -/
def dict_setdefault {α : Type} (m : List (String × α)) (k : String) (v : α) :
    List (String × α) :=
  if (m.lookup k).isSome then m else m ++ [(k, v)]

/-- Association-list model of `dict` item assignment. -/
def dict_set {α : Type} : List (String × α) → String → α → List (String × α)
  | [], k, v => [(k, v)]
  | (k', v') :: rest, k, v =>
    if k' = k then (k, v) :: rest else (k', v') :: dict_set rest k v

/-- The cached ADC payload consumed by `CachedSignalReader.read_signals`
(`adc_cache.read_cache` output).  `age` is `cache_age_seconds(payload)`;
non-dict `signals` / `volts` entries are modelled as `none`. -/
structure CachePayload where
  age : ℤ
  signals : Option (List (String × Bool))
  volts : Option (List (String × ℤ))
  vacuum_volts : Option ℤ

/-- `CachedSignalReader.read_signals(return_volts=True)`: rejects stale or
malformed payloads with `ADCStaleError`, defaults missing control channels. -/
def CachedSignalReader.read_signals (max_age_seconds : ℤ) (payload : CachePayload) :
    Except String (List (String × Bool) × List (String × ℤ)) :=
  if payload.age > max_age_seconds then Except.error ("ADC cache stale")
  else
    match payload.signals with
    | none => Except.error ("ADC cache missing signals")
    | some signals =>
      match payload.volts with
      | none => Except.error ("ADC cache missing volts")
      | some volts =>
        if ((volts.lookup ("tank_full")).isSome
            && (volts.lookup ("manual_start")).isSome
            && (volts.lookup ("tank_empty")).isSome) = false then
          Except.error ("ADC cache missing volts for a pump channel")
        else
          let signals1 := dict_setdefault (dict_setdefault (dict_setdefault signals
            ("service_on") false) ("service_off") false) ("clear_fatal") false
          let volts1 := dict_setdefault (dict_setdefault (dict_setdefault volts
            ("service_on") 0) ("service_off") 0) ("clear_fatal") 0
          let volts2 :=
            match payload.vacuum_volts with
            | some v => dict_set volts1 ("vacuum") v
            | none => volts1
          Except.ok (signals1, volts2)

/-- Refinement target, transcribed from the truth table of spec section 4.2:
the prescribed resulting state and emitted pump-event types for each input
combination `(tank_full, manual_start, tank_empty)` and prior state. -/
def spec_table (p1 p2 p3 : Bool) (st : PState) : PState × List EventType :=
  match p1, p2, p3 with
  | false, false, false => (st, [])
  | true, true, true => (if st = PState.notPumping then PState.pumping else st, [])
  | true, false, true => (if st = PState.notPumping then PState.pumping else st, [])
  | false, true, true =>
    (PState.notPumping,
     if st = PState.pumping ∨ st = PState.manualPumping then [EventType.pumpStop] else [])
  | true, true, false =>
    (PState.pumping, if st = PState.pumping then [] else [EventType.autoPumpStart])
  | true, false, false =>
    (PState.pumping, if st = PState.pumping then [] else [EventType.autoPumpStart])
  | false, true, false =>
    (if st = PState.notPumping then PState.manualPumping else st,
     if st = PState.notPumping then [EventType.manualPumpStart] else [])
  | false, false, true =>
    (PState.notPumping,
     if st = PState.pumping ∨ st = PState.manualPumping then [EventType.pumpStop] else [])

/-- The `error_started_at` value left by one non-fatal truth-table evaluation
(derived from the source; used to state the amended claim C7). -/
def esa_table (p1 p2 p3 : Bool) (st : PState) (now : ℤ) (esa0 : Option ℤ) : Option ℤ :=
  match p1, p2, p3 with
  | true, true, true => some (esa0.getD now)
  | true, false, true => some (esa0.getD now)
  | true, true, false => some (esa0.getD now)
  | true, false, false => if st = PState.notPumping then none else some (esa0.getD now)
  | _, _, _ => none

/-- The `pump_end_time` value left by one non-fatal truth-table evaluation
(derived from the source; used to state the amended claim C8). -/
def pet_table (p1 p2 p3 : Bool) (st : PState) (now : ℤ) (pet0 : Option ℤ) : Option ℤ :=
  match p1, p2, p3 with
  | false, false, false => pet0
  | true, true, true => pet0
  | true, false, true => pet0
  | false, true, true =>
    if st = PState.pumping ∨ st = PState.manualPumping then some now else pet0
  | true, true, false => if st = PState.pumping then pet0 else none
  | true, false, false => if st = PState.pumping then pet0 else none
  | false, true, false => if st = PState.notPumping then none else pet0
  | false, false, true => some now

section ProjectionLemmas

variable (cfg : Config) (now : ℤ) (s : PumpState) (m : String) (ev : EventType) (c : PState)

@[simp] theorem record_error_current_state :
    ((record_error now s m).1).current_state = s.current_state := rfl

@[simp] theorem record_error_fatal_error :
    ((record_error now s m).1).fatal_error = s.fatal_error := rfl

@[simp] theorem record_error_fatal_sent :
    ((record_error now s m).1).fatal_sent = s.fatal_sent := rfl

@[simp] theorem record_error_error_started_at :
    ((record_error now s m).1).error_started_at = s.error_started_at := rfl

@[simp] theorem record_error_adc_stale_started_at :
    ((record_error now s m).1).adc_stale_started_at = s.adc_stale_started_at := rfl

@[simp] theorem record_error_pump_start_time :
    ((record_error now s m).1).pump_start_time = s.pump_start_time := rfl

@[simp] theorem record_error_pump_end_time :
    ((record_error now s m).1).pump_end_time = s.pump_end_time := rfl

@[simp] theorem record_error_last_stop_time :
    ((record_error now s m).1).last_stop_time = s.last_stop_time := rfl

@[simp] theorem record_error_last_fill_time :
    ((record_error now s m).1).last_fill_time = s.last_fill_time := rfl

@[simp] theorem record_error_last_flow_rate :
    ((record_error now s m).1).last_flow_rate = s.last_flow_rate := rfl

@[simp] theorem record_error_last_error_count_logged :
    ((record_error now s m).1).last_error_count_logged = s.last_error_count_logged := rfl

@[simp] theorem reset_error_timer_current_state :
    (reset_error_timer s).current_state = s.current_state := rfl

@[simp] theorem reset_error_timer_fatal_error :
    (reset_error_timer s).fatal_error = s.fatal_error := rfl

@[simp] theorem reset_error_timer_fatal_sent :
    (reset_error_timer s).fatal_sent = s.fatal_sent := rfl

@[simp] theorem reset_error_timer_error_started_at :
    (reset_error_timer s).error_started_at = none := rfl

@[simp] theorem reset_error_timer_adc_stale_started_at :
    (reset_error_timer s).adc_stale_started_at = none := rfl

@[simp] theorem reset_error_timer_last_error_count_logged :
    (reset_error_timer s).last_error_count_logged = none := rfl

@[simp] theorem reset_error_timer_pump_start_time :
    (reset_error_timer s).pump_start_time = s.pump_start_time := rfl

@[simp] theorem reset_error_timer_pump_end_time :
    (reset_error_timer s).pump_end_time = s.pump_end_time := rfl

@[simp] theorem reset_error_timer_last_stop_time :
    (reset_error_timer s).last_stop_time = s.last_stop_time := rfl

@[simp] theorem reset_error_timer_last_fill_time :
    (reset_error_timer s).last_fill_time = s.last_fill_time := rfl

@[simp] theorem reset_error_timer_last_flow_rate :
    (reset_error_timer s).last_flow_rate = s.last_flow_rate := rfl

@[simp] theorem handle_fatal_fatal_error :
    ((handle_fatal now s).1).fatal_error = true := by
  by_cases hf : s.fatal_error <;> by_cases hs : s.fatal_sent <;>
    simp [handle_fatal, hf, hs]

@[simp] theorem handle_fatal_fatal_sent :
    ((handle_fatal now s).1).fatal_sent = true := by
  by_cases hf : s.fatal_error <;> by_cases hs : s.fatal_sent <;>
    simp [handle_fatal, hf, hs]

@[simp] theorem handle_fatal_current_state :
    ((handle_fatal now s).1).current_state
      = if s.fatal_error then s.current_state else PState.notPumping := by
  by_cases hf : s.fatal_error <;> by_cases hs : s.fatal_sent <;>
    simp [handle_fatal, hf, hs]

@[simp] theorem handle_fatal_pump_start_time :
    ((handle_fatal now s).1).pump_start_time
      = if s.fatal_error then s.pump_start_time else none := by
  by_cases hf : s.fatal_error <;> by_cases hs : s.fatal_sent <;>
    simp [handle_fatal, hf, hs]

@[simp] theorem handle_fatal_error_started_at :
    ((handle_fatal now s).1).error_started_at = s.error_started_at := by
  by_cases hf : s.fatal_error <;> by_cases hs : s.fatal_sent <;>
    simp [handle_fatal, hf, hs]

@[simp] theorem handle_fatal_adc_stale_started_at :
    ((handle_fatal now s).1).adc_stale_started_at = s.adc_stale_started_at := by
  by_cases hf : s.fatal_error <;> by_cases hs : s.fatal_sent <;>
    simp [handle_fatal, hf, hs]

@[simp] theorem handle_fatal_pump_end_time :
    ((handle_fatal now s).1).pump_end_time = s.pump_end_time := by
  by_cases hf : s.fatal_error <;> by_cases hs : s.fatal_sent <;>
    simp [handle_fatal, hf, hs]

@[simp] theorem handle_fatal_last_stop_time :
    ((handle_fatal now s).1).last_stop_time = s.last_stop_time := by
  by_cases hf : s.fatal_error <;> by_cases hs : s.fatal_sent <;>
    simp [handle_fatal, hf, hs]

@[simp] theorem handle_fatal_last_fill_time :
    ((handle_fatal now s).1).last_fill_time = s.last_fill_time := by
  by_cases hf : s.fatal_error <;> by_cases hs : s.fatal_sent <;>
    simp [handle_fatal, hf, hs]

@[simp] theorem handle_fatal_last_flow_rate :
    ((handle_fatal now s).1).last_flow_rate = s.last_flow_rate := by
  by_cases hf : s.fatal_error <;> by_cases hs : s.fatal_sent <;>
    simp [handle_fatal, hf, hs]

@[simp] theorem handle_fatal_last_error_count_logged :
    ((handle_fatal now s).1).last_error_count_logged = s.last_error_count_logged := by
  by_cases hf : s.fatal_error <;> by_cases hs : s.fatal_sent <;>
    simp [handle_fatal, hf, hs]

@[simp] theorem handle_fatal_events :
    (handle_fatal now s).2.1 = if s.fatal_sent then [] else [fatalEvent] := by
  by_cases hf : s.fatal_error <;> by_cases hs : s.fatal_sent <;>
    simp [handle_fatal, hf, hs]

end ProjectionLemmas

section ProjectionLemmasTwo

variable (cfg : Config) (now : ℤ) (s : PumpState) (m : String) (ev : EventType) (c : PState)

@[simp] theorem pump_stop_current_state :
    ((pump_stop now s c).1).current_state = s.current_state := by
  unfold pump_stop
  rcases hps : s.pump_start_time with _ | t <;> simp [hps]

@[simp] theorem pump_stop_fatal_error :
    ((pump_stop now s c).1).fatal_error = s.fatal_error := by
  unfold pump_stop
  rcases hps : s.pump_start_time with _ | t <;> simp [hps]

@[simp] theorem pump_stop_fatal_sent :
    ((pump_stop now s c).1).fatal_sent = s.fatal_sent := by
  unfold pump_stop
  rcases hps : s.pump_start_time with _ | t <;> simp [hps]

@[simp] theorem pump_stop_error_started_at :
    ((pump_stop now s c).1).error_started_at = s.error_started_at := by
  unfold pump_stop
  rcases hps : s.pump_start_time with _ | t <;> simp [hps]

@[simp] theorem pump_stop_adc_stale_started_at :
    ((pump_stop now s c).1).adc_stale_started_at = s.adc_stale_started_at := by
  unfold pump_stop
  rcases hps : s.pump_start_time with _ | t <;> simp [hps]

@[simp] theorem pump_stop_last_error_count_logged :
    ((pump_stop now s c).1).last_error_count_logged = s.last_error_count_logged := by
  unfold pump_stop
  rcases hps : s.pump_start_time with _ | t <;> simp [hps]

@[simp] theorem pump_stop_last_fill_time :
    ((pump_stop now s c).1).last_fill_time = s.last_fill_time := by
  unfold pump_stop
  rcases hps : s.pump_start_time with _ | t <;> simp [hps]

@[simp] theorem pump_stop_last_flow_rate :
    ((pump_stop now s c).1).last_flow_rate = s.last_flow_rate := by
  unfold pump_stop
  rcases hps : s.pump_start_time with _ | t <;> simp [hps]

@[simp] theorem pump_stop_pump_end_time :
    ((pump_stop now s c).1).pump_end_time = some now := by
  unfold pump_stop
  rcases hps : s.pump_start_time with _ | t <;> simp [hps]

@[simp] theorem pump_stop_last_stop_time :
    ((pump_stop now s c).1).last_stop_time = some now := by
  unfold pump_stop
  rcases hps : s.pump_start_time with _ | t <;> simp [hps]

@[simp] theorem pump_stop_pump_start_time :
    ((pump_stop now s c).1).pump_start_time = none := by
  unfold pump_stop
  rcases hps : s.pump_start_time with _ | t <;> simp [hps]

@[simp] theorem pump_stop_events_map :
    ((pump_stop now s c).2.1).map PumpEvent.event_type = [EventType.pumpStop] := by
  unfold pump_stop
  rcases hps : s.pump_start_time with _ | t <;> simp [hps]

@[simp] theorem tank_full_current_state :
    ((tank_full_event_handling now s ev).1).current_state = s.current_state := by
  unfold tank_full_event_handling
  rcases hps : s.pump_start_time with _ | t <;> rcases hpe : s.pump_end_time with _ | te <;>
    simp [hps, hpe]

@[simp] theorem tank_full_fatal_error :
    ((tank_full_event_handling now s ev).1).fatal_error = s.fatal_error := by
  unfold tank_full_event_handling
  rcases hps : s.pump_start_time with _ | t <;> rcases hpe : s.pump_end_time with _ | te <;>
    simp [hps, hpe]

@[simp] theorem tank_full_fatal_sent :
    ((tank_full_event_handling now s ev).1).fatal_sent = s.fatal_sent := by
  unfold tank_full_event_handling
  rcases hps : s.pump_start_time with _ | t <;> rcases hpe : s.pump_end_time with _ | te <;>
    simp [hps, hpe]

@[simp] theorem tank_full_error_started_at :
    ((tank_full_event_handling now s ev).1).error_started_at = s.error_started_at := by
  unfold tank_full_event_handling
  rcases hps : s.pump_start_time with _ | t <;> rcases hpe : s.pump_end_time with _ | te <;>
    simp [hps, hpe]

@[simp] theorem tank_full_adc_stale_started_at :
    ((tank_full_event_handling now s ev).1).adc_stale_started_at = s.adc_stale_started_at := by
  unfold tank_full_event_handling
  rcases hps : s.pump_start_time with _ | t <;> rcases hpe : s.pump_end_time with _ | te <;>
    simp [hps, hpe]

@[simp] theorem tank_full_last_error_count_logged :
    ((tank_full_event_handling now s ev).1).last_error_count_logged
      = s.last_error_count_logged := by
  unfold tank_full_event_handling
  rcases hps : s.pump_start_time with _ | t <;> rcases hpe : s.pump_end_time with _ | te <;>
    simp [hps, hpe]

@[simp] theorem tank_full_last_stop_time :
    ((tank_full_event_handling now s ev).1).last_stop_time = s.last_stop_time := by
  unfold tank_full_event_handling
  rcases hps : s.pump_start_time with _ | t <;> rcases hpe : s.pump_end_time with _ | te <;>
    simp [hps, hpe]

@[simp] theorem tank_full_pump_end_time :
    ((tank_full_event_handling now s ev).1).pump_end_time = none := by
  unfold tank_full_event_handling
  rcases hps : s.pump_start_time with _ | t <;> rcases hpe : s.pump_end_time with _ | te <;>
    simp [hps, hpe]

@[simp] theorem tank_full_events_map :
    ((tank_full_event_handling now s ev).2.1).map PumpEvent.event_type = [ev] := by
  unfold tank_full_event_handling
  rcases hps : s.pump_start_time with _ | t <;> rcases hpe : s.pump_end_time with _ | te <;>
    simp [hps, hpe]

@[simp] theorem manual_start_current_state :
    ((manual_start now s).1).current_state = s.current_state := by
  unfold manual_start
  rcases hps : s.pump_start_time with _ | t <;> simp [hps]

@[simp] theorem manual_start_fatal_error :
    ((manual_start now s).1).fatal_error = s.fatal_error := by
  unfold manual_start
  rcases hps : s.pump_start_time with _ | t <;> simp [hps]

@[simp] theorem manual_start_fatal_sent :
    ((manual_start now s).1).fatal_sent = s.fatal_sent := by
  unfold manual_start
  rcases hps : s.pump_start_time with _ | t <;> simp [hps]

@[simp] theorem manual_start_error_started_at :
    ((manual_start now s).1).error_started_at = s.error_started_at := by
  unfold manual_start
  rcases hps : s.pump_start_time with _ | t <;> simp [hps]

@[simp] theorem manual_start_adc_stale_started_at :
    ((manual_start now s).1).adc_stale_started_at = s.adc_stale_started_at := by
  unfold manual_start
  rcases hps : s.pump_start_time with _ | t <;> simp [hps]

@[simp] theorem manual_start_last_error_count_logged :
    ((manual_start now s).1).last_error_count_logged = s.last_error_count_logged := by
  unfold manual_start
  rcases hps : s.pump_start_time with _ | t <;> simp [hps]

@[simp] theorem manual_start_last_stop_time :
    ((manual_start now s).1).last_stop_time = s.last_stop_time := by
  unfold manual_start
  rcases hps : s.pump_start_time with _ | t <;> simp [hps]

@[simp] theorem manual_start_pump_end_time :
    ((manual_start now s).1).pump_end_time = none := by
  unfold manual_start
  rcases hps : s.pump_start_time with _ | t <;> simp [hps]

@[simp] theorem manual_start_events_map :
    ((manual_start now s).2.1).map PumpEvent.event_type = [EventType.manualPumpStart] := by
  unfold manual_start
  rcases hps : s.pump_start_time with _ | t <;> simp [hps]

end ProjectionLemmasTwo

section IncrementErrorLemmas

variable (cfg : Config) (now : ℤ) (s : PumpState) (message : Option String)

@[simp] theorem increment_error_error_started_at :
    ((increment_error cfg now s message).1).error_started_at
      = some (s.error_started_at.getD now) := by
  unfold increment_error
  rcases hesa : s.error_started_at with _ | t <;> rcases message with _ | msg <;>
    simp [hesa] <;> (try split) <;> (try split) <;> simp_all

@[simp] theorem increment_error_adc_stale_started_at :
    ((increment_error cfg now s message).1).adc_stale_started_at
      = s.adc_stale_started_at := by
  unfold increment_error
  rcases hesa : s.error_started_at with _ | t <;> rcases message with _ | msg <;>
    simp [hesa] <;> (try split) <;> (try split) <;> simp_all

@[simp] theorem increment_error_pump_end_time :
    ((increment_error cfg now s message).1).pump_end_time = s.pump_end_time := by
  unfold increment_error
  rcases hesa : s.error_started_at with _ | t <;> rcases message with _ | msg <;>
    simp [hesa] <;> (try split) <;> (try split) <;> simp_all

@[simp] theorem increment_error_last_stop_time :
    ((increment_error cfg now s message).1).last_stop_time = s.last_stop_time := by
  unfold increment_error
  rcases hesa : s.error_started_at with _ | t <;> rcases message with _ | msg <;>
    simp [hesa] <;> (try split) <;> (try split) <;> simp_all

@[simp] theorem increment_error_last_fill_time :
    ((increment_error cfg now s message).1).last_fill_time = s.last_fill_time := by
  unfold increment_error
  rcases hesa : s.error_started_at with _ | t <;> rcases message with _ | msg <;>
    simp [hesa] <;> (try split) <;> (try split) <;> simp_all

@[simp] theorem increment_error_last_flow_rate :
    ((increment_error cfg now s message).1).last_flow_rate = s.last_flow_rate := by
  unfold increment_error
  rcases hesa : s.error_started_at with _ | t <;> rcases message with _ | msg <;>
    simp [hesa] <;> (try split) <;> (try split) <;> simp_all

@[simp] theorem increment_error_current_state :
    ((increment_error cfg now s message).1).current_state
      = if cfg.error_threshold ≤ now - (s.error_started_at.getD now) then
          (if s.fatal_error = true then s.current_state else PState.notPumping)
        else s.current_state := by
  unfold increment_error
  rcases hesa : s.error_started_at with _ | t <;> rcases message with _ | msg <;>
    simp [hesa] <;> (try split) <;> (try split) <;> simp_all

@[simp] theorem increment_error_fatal_error :
    ((increment_error cfg now s message).1).fatal_error
      = if cfg.error_threshold ≤ now - (s.error_started_at.getD now) then true
        else s.fatal_error := by
  unfold increment_error
  rcases hesa : s.error_started_at with _ | t <;> rcases message with _ | msg <;>
    simp [hesa] <;> (try split) <;> (try split) <;> simp_all

@[simp] theorem increment_error_fatal_sent :
    ((increment_error cfg now s message).1).fatal_sent
      = if cfg.error_threshold ≤ now - (s.error_started_at.getD now) then true
        else s.fatal_sent := by
  unfold increment_error
  rcases hesa : s.error_started_at with _ | t <;> rcases message with _ | msg <;>
    simp [hesa] <;> (try split) <;> (try split) <;> simp_all

@[simp] theorem increment_error_pump_start_time :
    ((increment_error cfg now s message).1).pump_start_time
      = if cfg.error_threshold ≤ now - (s.error_started_at.getD now) then
          (if s.fatal_error = true then s.pump_start_time else none)
        else s.pump_start_time := by
  unfold increment_error
  rcases hesa : s.error_started_at with _ | t <;> rcases message with _ | msg <;>
    simp [hesa] <;> (try split) <;> (try split) <;> simp_all

@[simp] theorem increment_error_events :
    (increment_error cfg now s message).2.1
      = if cfg.error_threshold ≤ now - (s.error_started_at.getD now) then
          (if s.fatal_sent = true then [] else [fatalEvent])
        else [] := by
  unfold increment_error
  rcases hesa : s.error_started_at with _ | t <;> rcases message with _ | msg <;>
    simp [hesa] <;> (try split) <;> (try split) <;> simp_all

end IncrementErrorLemmas

section AdcStaleLemmas

variable (cfg : Config) (now : ℤ) (s : PumpState) (m : String)

theorem increment_adc_stale_adc :
    ((increment_adc_stale cfg now s m).1).adc_stale_started_at
      = some (s.adc_stale_started_at.getD now) := by
  unfold increment_adc_stale
  rcases hadc : s.adc_stale_started_at with _ | t <;>
    cases hcs : s.current_state <;>
    simp [hadc, hcs] <;> (try split) <;> simp_all

theorem increment_adc_stale_current_state :
    ((increment_adc_stale cfg now s m).1).current_state = PState.notPumping := by
  unfold increment_adc_stale
  rcases hadc : s.adc_stale_started_at with _ | t <;>
    cases hcs : s.current_state <;>
    simp [hadc, hcs] <;> (try split) <;> simp_all

theorem increment_adc_stale_fatal_mono (h : s.fatal_error = true) :
    ((increment_adc_stale cfg now s m).1).fatal_error = true := by
  unfold increment_adc_stale
  rcases hadc : s.adc_stale_started_at with _ | t <;>
    cases hcs : s.current_state <;>
    simp [hadc, hcs, h] <;> (try split) <;> simp_all

theorem increment_adc_stale_fatal_sent_mono (h : s.fatal_sent = true) :
    ((increment_adc_stale cfg now s m).1).fatal_sent = true := by
  unfold increment_adc_stale
  rcases hadc : s.adc_stale_started_at with _ | t <;>
    cases hcs : s.current_state <;>
    simp [hadc, hcs, h] <;> (try split) <;> simp_all

theorem increment_adc_stale_fire
    (h : now - (s.adc_stale_started_at.getD now) ≥ cfg.adc_stale_fatal_seconds) :
    ((increment_adc_stale cfg now s m).1).fatal_error = true := by
  unfold increment_adc_stale
  rcases hadc : s.adc_stale_started_at with _ | t <;>
    cases hcs : s.current_state <;>
    simp [hadc, hcs] at h ⊢ <;> rw [if_pos (by omega)] <;> simp

theorem increment_adc_stale_events_types :
    ((increment_adc_stale cfg now s m).2.1).map PumpEvent.event_type
      = (if s.current_state = PState.pumping ∨ s.current_state = PState.manualPumping
          then [EventType.pumpStop] else [])
        ++ (if now - (s.adc_stale_started_at.getD now) ≥ cfg.adc_stale_fatal_seconds
              ∧ s.fatal_sent = false
            then [EventType.fatalError] else []) := by
  unfold increment_adc_stale
  rcases hadc : s.adc_stale_started_at with _ | t <;> cases hcs : s.current_state <;>
    by_cases hsent : s.fatal_sent <;>
    simp [hadc, hcs, hsent, fatalEvent] <;>
    (try split) <;> simp_all

theorem increment_adc_stale_no_events
    (h1 : s.fatal_sent = true) (h2 : s.current_state = PState.notPumping) :
    (increment_adc_stale cfg now s m).2.1 = [] := by
  have h := increment_adc_stale_events_types cfg now s m
  simp [h1, h2] at h
  exact h

end AdcStaleLemmas

section ApplySignalsLemmas

variable (cfg : Config) (now : ℤ) (s : PumpState) (signals : Signals)

theorem error_guard_false_not_fire (hg : error_guard cfg now s = false)
    (hth : 0 < cfg.error_threshold) :
    ¬ cfg.error_threshold ≤ now - (s.error_started_at.getD now) := by
  unfold error_guard at hg
  rcases hesa : s.error_started_at with _ | t <;> simp [hesa] at hg ⊢ <;> omega

theorem apply_signals_spec
    (hf : s.fatal_error = false) (hg : error_guard cfg now s = false)
    (hth : 0 < cfg.error_threshold) :
    ((apply_signals cfg now s signals).1).current_state
        = (spec_table signals.tank_full signals.manual_start signals.tank_empty
            s.current_state).1
    ∧ ((apply_signals cfg now s signals).2.1).map PumpEvent.event_type
        = (spec_table signals.tank_full signals.manual_start signals.tank_empty
            s.current_state).2
    ∧ ((apply_signals cfg now s signals).1).fatal_error = false
    ∧ ((apply_signals cfg now s signals).1).fatal_sent = s.fatal_sent
    ∧ ((apply_signals cfg now s signals).1).error_started_at
        = esa_table signals.tank_full signals.manual_start signals.tank_empty
            s.current_state now s.error_started_at
    ∧ ((apply_signals cfg now s signals).1).pump_end_time
        = pet_table signals.tank_full signals.manual_start signals.tank_empty
            s.current_state now s.pump_end_time := by
  have hnf := error_guard_false_not_fire cfg now s hg hth
  rcases signals with ⟨p1, p2, p3, q1, q2, q3⟩
  unfold apply_signals
  rw [if_neg (by simp [hf]), if_neg (by simp [hg])]
  cases p1 <;> cases p2 <;> cases p3 <;> cases hcs : s.current_state <;>
    simp [spec_table, esa_table, pet_table, hcs, hnf, hf]

end ApplySignalsLemmas

section ApplySignalsMoreLemmas

variable (cfg : Config) (now : ℤ) (s : PumpState) (signals : Signals)

theorem apply_signals_fatal_branch (hf : s.fatal_error = true) :
    apply_signals cfg now s signals = handle_fatal now s := by
  unfold apply_signals
  rw [if_pos hf]

theorem apply_signals_guard_fatal (hg : error_guard cfg now s = true) :
    ((apply_signals cfg now s signals).1).fatal_error = true := by
  unfold apply_signals
  by_cases hf : s.fatal_error <;> simp [hf, hg]

theorem apply_signals_adc_none (h : s.adc_stale_started_at = none) :
    ((apply_signals cfg now s signals).1).adc_stale_started_at = none := by
  rcases signals with ⟨p1, p2, p3, q1, q2, q3⟩
  unfold apply_signals
  by_cases hfb : s.fatal_error <;> by_cases hgb : error_guard cfg now s <;>
    simp [hfb, hgb, h] <;>
    cases p1 <;> cases p2 <;> cases p3 <;> cases hcs : s.current_state <;>
      simp [hcs, h]

theorem apply_signals_fatal_sent_mono (h : s.fatal_sent = true) :
    ((apply_signals cfg now s signals).1).fatal_sent = true := by
  rcases signals with ⟨p1, p2, p3, q1, q2, q3⟩
  unfold apply_signals
  by_cases hfb : s.fatal_error <;> by_cases hgb : error_guard cfg now s <;>
    simp [hfb, hgb, h] <;>
    cases p1 <;> cases p2 <;> cases p3 <;> cases hcs : s.current_state <;>
      simp [hcs, h]

end ApplySignalsMoreLemmas

section InvariantLemmas

theorem apply_signals_preserves_inv (cfg : Config) (now : ℤ) (s : PumpState)
    (signals : Signals) (hth : 0 < cfg.error_threshold)
    (hinv : s.fatal_error = true → s.current_state = PState.notPumping) :
    ((apply_signals cfg now s signals).1).fatal_error = true →
    ((apply_signals cfg now s signals).1).current_state = PState.notPumping := by
  by_cases hfb : s.fatal_error
  · rw [apply_signals_fatal_branch cfg now s signals hfb]
    intro _
    simp [hfb, hinv hfb]
  · by_cases hgb : error_guard cfg now s
    · unfold apply_signals
      rw [if_neg (by simp [hfb]), if_pos hgb]
      intro _
      simp [hfb]
    · intro hcontra
      have := (apply_signals_spec cfg now s signals (by simpa using hfb)
        (by simpa using hgb) hth).2.2.1
      rw [this] at hcontra
      exact absurd hcontra (by simp)

theorem poll_preserves_inv (cfg : Config) (now : ℤ) (s : PumpState) (inp : PollInput)
    (hth : 0 < cfg.error_threshold)
    (hinv : s.fatal_error = true → s.current_state = PState.notPumping) :
    ((poll cfg now s inp).1).fatal_error = true →
    ((poll cfg now s inp).1).current_state = PState.notPumping := by
  cases inp with
  | ok sig2 =>
    exact apply_signals_preserves_inv cfg now { s with adc_stale_started_at := none } sig2
      hth (fun h => hinv h)
  | stale m2 =>
    intro _
    exact increment_adc_stale_current_state cfg now s m2

theorem run_polls_preserves_inv (cfg : Config) (hth : 0 < cfg.error_threshold) :
    ∀ (polls : List (ℤ × PollInput)) (s : PumpState),
      (s.fatal_error = true → s.current_state = PState.notPumping) →
      ((run_polls cfg polls s).1).fatal_error = true →
      ((run_polls cfg polls s).1).current_state = PState.notPumping := by
  intro polls
  induction polls with
  | nil => intro s hinv h; exact hinv h
  | cons a rest ih =>
    intro s hinv h
    obtain ⟨t, inp⟩ := a
    rw [run_polls] at h ⊢
    exact ih (poll cfg t s inp).1 (poll_preserves_inv cfg t s inp hth hinv) h

end InvariantLemmas

section ControlHoldLemmas

theorem control_hold_step_low (hold_seconds now : ℤ) (h : HoldState) :
    control_hold_step hold_seconds now false h
      = ({ hold_start := none, fired := false }, false) := rfl

theorem control_hold_step_high_fired (hold_seconds now : ℤ) (h : HoldState)
    (hf : h.fired = true) :
    control_hold_step hold_seconds now true h
      = ({ hold_start := some (h.hold_start.getD now), fired := true }, false) := by
  unfold control_hold_step
  simp [hf]

theorem control_hold_step_fires_iff (hold_seconds now : ℤ) (level : Bool) (h : HoldState) :
    (control_hold_step hold_seconds now level h).2 = true
      ↔ level = true ∧ h.fired = false
          ∧ now - (h.hold_start.getD now) ≥ hold_seconds := by
  cases level <;> unfold control_hold_step <;> simp <;> split <;> simp_all

theorem run_hold_all_high_fired (hold_seconds : ℤ) :
    ∀ (trace : List (ℤ × Bool)) (h : HoldState),
      (∀ x ∈ trace, x.2 = true) → h.fired = true →
      (run_hold hold_seconds trace h).2 = 0
        ∧ ((run_hold hold_seconds trace h).1).fired = true := by
  intro trace
  induction trace with
  | nil => intro h _ hf; exact ⟨rfl, hf⟩
  | cons a rest ih =>
    intro h hall hf
    obtain ⟨t, level⟩ := a
    have hlev : level = true := hall (t, level) (by simp)
    subst hlev
    have hrest : ∀ x ∈ rest, x.2 = true := fun x hx => hall x (by simp [hx])
    unfold run_hold
    rw [control_hold_step_high_fired _ _ _ hf]
    have := ih { hold_start := some (h.hold_start.getD t), fired := true } hrest rfl
    simp [this.1, this.2]

theorem run_hold_all_high_le_one (hold_seconds : ℤ) :
    ∀ (trace : List (ℤ × Bool)) (h : HoldState),
      (∀ x ∈ trace, x.2 = true) →
      (run_hold hold_seconds trace h).2 ≤ (if h.fired then 0 else 1) := by
  intro trace
  induction trace with
  | nil => intro h _; simp [run_hold]
  | cons a rest ih =>
    intro h hall
    obtain ⟨t, level⟩ := a
    have hlev : level = true := hall (t, level) (by simp)
    subst hlev
    have hrest : ∀ x ∈ rest, x.2 = true := fun x hx => hall x (by simp [hx])
    by_cases hf : h.fired
    · rw [run_hold, control_hold_step_high_fired _ _ _ hf]
      have := run_hold_all_high_fired hold_seconds rest
        { hold_start := some (h.hold_start.getD t), fired := true } hrest rfl
      simp [hf, this.1]
    · rw [run_hold]
      unfold control_hold_step
      simp only [if_pos rfl]
      by_cases hcond : h.fired = false ∧ t - (h.hold_start.getD t) ≥ hold_seconds
      · rw [if_pos hcond]
        have := run_hold_all_high_fired hold_seconds rest
          { hold_start := some (h.hold_start.getD t), fired := true } hrest rfl
        simp [hf, this.1]
      · rw [if_neg hcond]
        have hfb : h.fired = false := by simpa using hf
        have := ih { hold_start := some (h.hold_start.getD t), fired := h.fired } hrest
        simp [hfb] at this ⊢
        omega

theorem run_hold_all_high_ge_one (hold_seconds t0 : ℤ) :
    ∀ (trace : List (ℤ × Bool)),
      (∀ x ∈ trace, x.2 = true) →
      (∃ x ∈ trace, x.1 - t0 ≥ hold_seconds) →
      1 ≤ (run_hold hold_seconds trace { hold_start := some t0, fired := false }).2 := by
  intro trace
  induction trace with
  | nil => intro _ hex; simp at hex
  | cons a rest ih =>
    intro hall hex
    obtain ⟨t, level⟩ := a
    have hlev : level = true := hall (t, level) (by simp)
    subst hlev
    have hrest : ∀ x ∈ rest, x.2 = true := fun x hx => hall x (by simp [hx])
    rw [run_hold]
    by_cases hcond : hold_seconds ≤ t - t0
    · have hstep : control_hold_step hold_seconds t true { hold_start := some t0, fired := false }
          = ({ hold_start := some t0, fired := true }, true) := by
        unfold control_hold_step
        simp [hcond]
      simp [hstep]
    · have hstep : control_hold_step hold_seconds t true { hold_start := some t0, fired := false }
          = ({ hold_start := some t0, fired := false }, false) := by
        unfold control_hold_step
        simp [hcond]
      have hex2 : ∃ x ∈ rest, x.1 - t0 ≥ hold_seconds := by
        rcases hex with ⟨x, hx, hxd⟩
        rcases List.mem_cons.mp hx with h1 | h1
        · subst h1; exact absurd hxd (by simpa using hcond)
        · exact ⟨x, h1, hxd⟩
      simp [hstep]
      have := ih hrest hex2
      omega

theorem run_hold_once (hold_seconds t : ℤ) (ts : List (ℤ × Bool))
    (hall : ∀ x ∈ ts, x.2 = true)
    (hdur : ∃ u ∈ t :: ts.map Prod.fst, u - t ≥ hold_seconds) :
    (run_hold hold_seconds ((t, true) :: ts) { hold_start := none, fired := false }).2
      = 1 := by
  rw [run_hold]
  by_cases hcond : hold_seconds ≤ 0
  · have hstep : control_hold_step hold_seconds t true { hold_start := none, fired := false }
        = ({ hold_start := some t, fired := true }, true) := by
      unfold control_hold_step
      simp
      omega
    have hrest := run_hold_all_high_fired hold_seconds ts
      { hold_start := some t, fired := true } hall rfl
    simp [hstep, hrest.1]
  · have hstep : control_hold_step hold_seconds t true { hold_start := none, fired := false }
        = ({ hold_start := some t, fired := false }, false) := by
      unfold control_hold_step
      simp
      omega
    have hex : ∃ x ∈ ts, x.1 - t ≥ hold_seconds := by
      rcases hdur with ⟨u, hu, hud⟩
      rcases List.mem_cons.mp hu with h1 | h1
      · subst h1; exact absurd hud (by simpa using hcond)
      · rcases List.mem_map.mp h1 with ⟨x, hx, hxe⟩
        exact ⟨x, hx, by simpa [hxe] using hud⟩
    have hge := run_hold_all_high_ge_one hold_seconds t ts hall hex
    have hle := run_hold_all_high_le_one hold_seconds ts
      { hold_start := some t, fired := false } hall
    simp [hstep]
    simp at hle
    omega

end ControlHoldLemmas

section FatalEpisodeLemmas

variable (cfg : Config) (now : ℤ) (s : PumpState)

theorem handle_fatal_noop (hf : s.fatal_error = true) (hs2 : s.fatal_sent = true) :
    handle_fatal now s = (s, [], []) := by
  unfold handle_fatal
  simp [hf, hs2]

theorem poll_fatal_frozen (inp : PollInput)
    (hf : s.fatal_error = true) (hs2 : s.fatal_sent = true)
    (hcs : s.current_state = PState.notPumping) :
    (poll cfg now s inp).2.1 = []
      ∧ ((poll cfg now s inp).1).fatal_error = true
      ∧ ((poll cfg now s inp).1).fatal_sent = true
      ∧ ((poll cfg now s inp).1).current_state = PState.notPumping := by
  cases inp with
  | ok signals =>
    have h1 : ({ s with adc_stale_started_at := none } : PumpState).fatal_error = true := hf
    have h2 := apply_signals_fatal_branch cfg now
      { s with adc_stale_started_at := none } signals h1
    have h3 := handle_fatal_noop now { s with adc_stale_started_at := none } h1 hs2
    show (apply_signals cfg now { s with adc_stale_started_at := none } signals).2.1 = []
      ∧ ((apply_signals cfg now { s with adc_stale_started_at := none } signals).1).fatal_error
          = true
      ∧ ((apply_signals cfg now { s with adc_stale_started_at := none } signals).1).fatal_sent
          = true
      ∧ ((apply_signals cfg now { s with adc_stale_started_at := none } signals).1).current_state
          = PState.notPumping
    rw [h2, h3]
    exact ⟨rfl, hf, hs2, hcs⟩
  | stale message =>
    refine ⟨increment_adc_stale_no_events cfg now s message hs2 hcs, ?_, ?_, ?_⟩
    · exact increment_adc_stale_fatal_mono cfg now s message hf
    · exact increment_adc_stale_fatal_sent_mono cfg now s message hs2
    · exact increment_adc_stale_current_state cfg now s message

theorem run_polls_fatal_frozen :
    ∀ (polls : List (ℤ × PollInput)) (s : PumpState),
      s.fatal_error = true → s.fatal_sent = true →
      s.current_state = PState.notPumping →
      (run_polls cfg polls s).2 = []
        ∧ ((run_polls cfg polls s).1).fatal_error = true
        ∧ ((run_polls cfg polls s).1).fatal_sent = true
        ∧ ((run_polls cfg polls s).1).current_state = PState.notPumping := by
  intro polls
  induction polls with
  | nil => intro s hf hs2 hcs; exact ⟨rfl, hf, hs2, hcs⟩
  | cons a rest ih =>
    intro s hf hs2 hcs
    obtain ⟨t, inp⟩ := a
    have hstep := poll_fatal_frozen cfg t s inp hf hs2 hcs
    have hrest := ih (poll cfg t s inp).1 hstep.2.1 hstep.2.2.1 hstep.2.2.2
    rw [run_polls]
    exact ⟨by simp [hstep.1, hrest.1], hrest.2.1, hrest.2.2.1, hrest.2.2.2⟩

end FatalEpisodeLemmas

section DictLemmas

variable {α : Type} (m : List (String × α)) (k k2 : String) (v : α)

theorem dict_setdefault_lookup_self :
    (dict_setdefault m k v).lookup k = some ((m.lookup k).getD v) := by
  unfold dict_setdefault
  rcases h : m.lookup k with _ | w <;> simp [h, List.lookup_append]

theorem dict_setdefault_lookup_other (hne : k2 ≠ k) :
    (dict_setdefault m k v).lookup k2 = m.lookup k2 := by
  unfold dict_setdefault
  rcases h : m.lookup k with _ | w <;> rcases h2 : m.lookup k2 with _ | w2 <;>
    simp [h, h2, List.lookup_append, hne]

theorem dict_set_lookup_other (hne : k2 ≠ k) :
    ∀ (m : List (String × α)), (dict_set m k v).lookup k2 = m.lookup k2 := by
  intro m
  induction m with
  | nil => simp [dict_set, List.lookup, beq_false_of_ne hne]
  | cons a rest ih =>
    obtain ⟨ka, va⟩ := a
    by_cases hk : ka = k
    · subst hk
      simp [dict_set, List.lookup, beq_false_of_ne hne]
    · unfold dict_set
      rw [if_neg hk]
      by_cases hk2 : k2 = ka
      · subst hk2
        simp [List.lookup]
      · simp [List.lookup, beq_false_of_ne hk2, ih]

end DictLemmas

/-! ## Concrete fixtures used by witnesses and counterexamples -/

/-- The source defaults: `ERROR_THRESHOLD = 30`, `ADC_STALE_FATAL_SECONDS = 10`,
`CONTROL_HOLD_SECONDS = 5`. -/
def cfg_default : Config :=
  { error_threshold := 30, adc_stale_fatal_seconds := 10, control_hold_seconds := 5 }

/-- A legal but degenerate configuration with `ERROR_THRESHOLD = 0`. -/
def cfg_zero_threshold : Config :=
  { error_threshold := 0, adc_stale_fatal_seconds := 10, control_hold_seconds := 5 }

def signals000 : Signals :=
  { tank_full := false, manual_start := false, tank_empty := false,
    service_on := false, service_off := false, clear_fatal := false }

def signals100 : Signals :=
  { tank_full := true, manual_start := false, tank_empty := false,
    service_on := false, service_off := false, clear_fatal := false }

def signals111 : Signals :=
  { tank_full := true, manual_start := true, tank_empty := true,
    service_on := false, service_off := false, clear_fatal := false }

def signals010 : Signals :=
  { tank_full := false, manual_start := true, tank_empty := false,
    service_on := false, service_off := false, clear_fatal := false }

def signals001 : Signals :=
  { tank_full := false, manual_start := false, tank_empty := true,
    service_on := false, service_off := false, clear_fatal := false }

/-- A state in the middle of a fatal episode, the terminal event already sent. -/
def fatal_state : PumpState :=
  { current_state := PState.notPumping, fatal_error := true, fatal_sent := true }

/-- An auto-pumping state with all optional fields unset. -/
def pumping_state : PumpState := { current_state := PState.pumping }

/-- An idle state that already carries a recorded `pump_end_time`. -/
def preset_end_state : PumpState := { pump_end_time := some 5 }

/-! ## Claims -/

/-- C1: for every combination of the three boolean inputs and every non-fatal
prior state (with the error-escalation overlay not firing on this poll:
`error_guard` false and a positive `error_threshold`), one evaluation of
`_apply_signals` produces exactly the resulting state and the emitted
pump-event types prescribed by the truth table of spec section 4.2. -/
theorem claim_C1_truth_table (cfg : Config) (now : ℤ) (s : PumpState) (signals : Signals)
    (hf : s.fatal_error = false) (hg : error_guard cfg now s = false)
    (hth : 0 < cfg.error_threshold) :
    ((apply_signals cfg now s signals).1).current_state
        = (spec_table signals.tank_full signals.manual_start signals.tank_empty
            s.current_state).1
      ∧ ((apply_signals cfg now s signals).2.1).map PumpEvent.event_type
        = (spec_table signals.tank_full signals.manual_start signals.tank_empty
            s.current_state).2 :=
  ⟨(apply_signals_spec cfg now s signals hf hg hth).1,
   (apply_signals_spec cfg now s signals hf hg hth).2.1⟩

theorem claim_C1_truth_table_witness :
    PumpState.initial.fatal_error = false
    ∧ error_guard cfg_default 0 PumpState.initial = false
    ∧ (0 : ℤ) < cfg_default.error_threshold
    ∧ (((apply_signals cfg_default 0 PumpState.initial signals100).1).current_state
        = (spec_table signals100.tank_full signals100.manual_start signals100.tank_empty
            PumpState.initial.current_state).1
      ∧ ((apply_signals cfg_default 0 PumpState.initial signals100).2.1).map
            PumpEvent.event_type
        = (spec_table signals100.tank_full signals100.manual_start signals100.tank_empty
            PumpState.initial.current_state).2) :=
  ⟨rfl, rfl, by decide,
   claim_C1_truth_table cfg_default 0 PumpState.initial signals100 rfl rfl (by decide)⟩

/-- C2 counterexample: with the legal configuration `error_threshold = 0`, the
very first poll with inputs `111` from the initial state escalates to fatal
inside `_increment_error` and then `_apply_signals` still applies the
`111`-row transition for the stale pre-dispatch state snapshot, leaving
`fatal_error = true` with `current_state = Pumping` — the invariant of the
claim is not preserved by the signal-application operation as stated. -/
theorem claim_C2_counterexample :
    ((apply_signals cfg_zero_threshold 0 PumpState.initial signals111).1).fatal_error = true
    ∧ ((apply_signals cfg_zero_threshold 0 PumpState.initial signals111).1).current_state
        = PState.pumping
    ∧ ((poll cfg_zero_threshold 0 PumpState.initial (PollInput.ok signals111)).1).fatal_error
        = true
    ∧ ((poll cfg_zero_threshold 0 PumpState.initial (PollInput.ok signals111)).1).current_state
        = PState.pumping := by decide

/-- C2 (amended): provided `error_threshold` is positive, the invariant
`fatal_error = true → current_state = NotPumping` holds initially and is
preserved by every controller operation (signal application, staleness
handling, fatal handling, clear-fatal, a whole poll, and any sequence of
polls — so it holds of every state reachable from one satisfying it), and
while `fatal_error` is true the relay worker commands the relay output
OFF. -/
theorem claim_C2_amended (cfg : Config) (now : ℤ) (s : PumpState) (signals : Signals)
    (m : String) (inp : PollInput)
    (hth : 0 < cfg.error_threshold)
    (hinv : s.fatal_error = true → s.current_state = PState.notPumping) :
    (PumpState.initial.fatal_error = true →
        PumpState.initial.current_state = PState.notPumping)
    ∧ (((apply_signals cfg now s signals).1).fatal_error = true →
        ((apply_signals cfg now s signals).1).current_state = PState.notPumping)
    ∧ (((increment_adc_stale cfg now s m).1).fatal_error = true →
        ((increment_adc_stale cfg now s m).1).current_state = PState.notPumping)
    ∧ (((handle_fatal now s).1).fatal_error = true →
        ((handle_fatal now s).1).current_state = PState.notPumping)
    ∧ (((clear_fatal_error now s).1).fatal_error = true →
        ((clear_fatal_error now s).1).current_state = PState.notPumping)
    ∧ (((poll cfg now s inp).1).fatal_error = true →
        ((poll cfg now s inp).1).current_state = PState.notPumping)
    ∧ (s.fatal_error = true → relay_worker_tick s = false)
    ∧ (∀ (polls : List (ℤ × PollInput)),
        ((run_polls cfg polls s).1).fatal_error = true →
        ((run_polls cfg polls s).1).current_state = PState.notPumping) := by
  refine ⟨by intro h; exact absurd h (by simp [PumpState.initial]), ?_, ?_, ?_, ?_, ?_, ?_, ?_⟩
  · exact apply_signals_preserves_inv cfg now s signals hth hinv
  · intro _
    exact increment_adc_stale_current_state cfg now s m
  · intro _
    by_cases hfb : s.fatal_error
    · simp [hfb, hinv hfb]
    · simp [hfb]
  · intro hcontra
    unfold clear_fatal_error at hcontra ⊢
    by_cases hfb : s.fatal_error
    · rw [if_pos hfb] at hcontra
      simp at hcontra
    · rw [if_neg hfb] at hcontra ⊢
      exact absurd hcontra hfb
  · exact poll_preserves_inv cfg now s inp hth hinv
  · intro h
    unfold relay_worker_tick
    simp [h]
  · intro polls
    exact run_polls_preserves_inv cfg hth polls s hinv

theorem claim_C2_amended_witness :
    (0 : ℤ) < cfg_default.error_threshold
    ∧ (PumpState.initial.fatal_error = true →
        PumpState.initial.current_state = PState.notPumping)
    ∧ ((((apply_signals cfg_default 0 PumpState.initial signals000).1).fatal_error = true →
        ((apply_signals cfg_default 0 PumpState.initial signals000).1).current_state
          = PState.notPumping)
      ∧ (PumpState.initial.fatal_error = true → relay_worker_tick PumpState.initial = false)
      ∧ (((run_polls cfg_default [(0, PollInput.ok signals111)] PumpState.initial).1).fatal_error
            = true →
          ((run_polls cfg_default [(0, PollInput.ok signals111)]
              PumpState.initial).1).current_state = PState.notPumping)) :=
  ⟨by decide, by decide,
   (claim_C2_amended cfg_default 0 PumpState.initial signals000 ("x")
      (PollInput.ok signals000) (by decide) (by decide)).2.1,
   (claim_C2_amended cfg_default 0 PumpState.initial signals000 ("x")
      (PollInput.ok signals000) (by decide) (by decide)).2.2.2.2.2.2.1,
   (claim_C2_amended cfg_default 0 PumpState.initial signals000 ("x")
      (PollInput.ok signals000) (by decide) (by decide)).2.2.2.2.2.2.2
     [(0, PollInput.ok signals111)]⟩

/-- C9: the fatal handler is idempotent — in any state where `fatal_error` and
`fatal_sent` are already both true, `_handle_fatal` returns the state
unchanged and emits no pump event and no error-log line. -/
theorem claim_C9_fatal_idempotent (now : ℤ) (s : PumpState)
    (hf : s.fatal_error = true) (hs2 : s.fatal_sent = true) :
    handle_fatal now s = (s, [], []) :=
  handle_fatal_noop now s hf hs2

theorem claim_C9_fatal_idempotent_witness :
    fatal_state.fatal_error = true
    ∧ fatal_state.fatal_sent = true
    ∧ handle_fatal 7 fatal_state = (fatal_state, [], []) :=
  ⟨rfl, rfl, claim_C9_fatal_idempotent 7 fatal_state rfl rfl⟩

/-- C3: within one fatal episode, exactly one `FatalError` event is emitted:
the fatal handler emits the event and flips `fatal_sent` exactly when
`fatal_sent` was false; once `fatal_sent` is true no poll resets it and any
number of further polls (stale or successful, the error condition persisting)
emits no pump event at all; `fatal_sent` is reset only by the clear-fatal
action. -/
theorem claim_C3_fatal_once (cfg : Config) :
    (∀ (now : ℤ) (s : PumpState), s.fatal_sent = false →
        ((handle_fatal now s).2.1).map PumpEvent.event_type = [EventType.fatalError]
          ∧ ((handle_fatal now s).1).fatal_sent = true)
    ∧ (∀ (now : ℤ) (s : PumpState), s.fatal_sent = true →
        (handle_fatal now s).2.1 = [] ∧ ((handle_fatal now s).1).fatal_sent = true)
    ∧ (∀ (now : ℤ) (s : PumpState) (inp : PollInput), s.fatal_sent = true →
        ((poll cfg now s inp).1).fatal_sent = true)
    ∧ (∀ (polls : List (ℤ × PollInput)) (s : PumpState),
        s.fatal_error = true → s.fatal_sent = true →
        s.current_state = PState.notPumping →
        (run_polls cfg polls s).2 = []
          ∧ ((run_polls cfg polls s).1).fatal_error = true
          ∧ ((run_polls cfg polls s).1).fatal_sent = true)
    ∧ (∀ (now : ℤ) (s : PumpState), s.fatal_error = true →
        ((clear_fatal_error now s).1).fatal_sent = false) := by
  refine ⟨?_, ?_, ?_, ?_, ?_⟩
  · intro now s h
    simp [handle_fatal_events, h, fatalEvent]
  · intro now s h
    simp [handle_fatal_events, h]
  · intro now s inp h
    cases inp with
    | ok sig2 =>
      exact apply_signals_fatal_sent_mono cfg now
        { s with adc_stale_started_at := none } sig2 h
    | stale m2 => exact increment_adc_stale_fatal_sent_mono cfg now s m2 h
  · intro polls s hf hs2 hcs
    have h := run_polls_fatal_frozen cfg polls s hf hs2 hcs
    exact ⟨h.1, h.2.1, h.2.2.1⟩
  · intro now s h
    unfold clear_fatal_error
    rw [if_pos h]
    simp

theorem claim_C3_fatal_once_witness :
    fatal_state.fatal_error = true
    ∧ fatal_state.fatal_sent = true
    ∧ fatal_state.current_state = PState.notPumping
    ∧ ((run_polls cfg_default [(0, PollInput.stale ("boom")), (1, PollInput.ok signals111)]
          fatal_state).2 = []
      ∧ ((run_polls cfg_default [(0, PollInput.stale ("boom")), (1, PollInput.ok signals111)]
          fatal_state).1).fatal_error = true
      ∧ ((run_polls cfg_default [(0, PollInput.stale ("boom")), (1, PollInput.ok signals111)]
          fatal_state).1).fatal_sent = true) :=
  ⟨rfl, rfl, rfl,
   (claim_C3_fatal_once cfg_default).2.2.2.1
     [(0, PollInput.stale ("boom")), (1, PollInput.ok signals111)] fatal_state rfl rfl rfl⟩

/-- C4: the relay actuator is commanded OFF at construction and on every
cleanup path regardless of its prior value, and a relay-worker tick commands
ON exactly when the snapshot shows Pumping or ManualPumping without a fatal
error. -/
theorem claim_C4_relay_failsafe :
    PumpRelay.initial_output = false
    ∧ (∀ b : Bool, PumpRelay.cleanup_output b = false)
    ∧ (∀ s : PumpState, relay_worker_tick s = true
        ↔ ((s.current_state = PState.pumping ∨ s.current_state = PState.manualPumping)
            ∧ s.fatal_error = false)) := by
  refine ⟨rfl, fun b => rfl, fun s => ?_⟩
  unfold relay_worker_tick
  cases hcs : s.current_state <;> cases hfb : s.fatal_error <;> simp [hcs, hfb]

/-- C5: a cache read with age above `adc_stale_seconds` fails with the
staleness error; each stale-read handler call stamps `adc_stale_started_at`
if unset, forces `NotPumping` (a `PumpStop` is among the emitted events
exactly when the prior state was active), and triggers the fatal path once
the staleness streak reaches `adc_stale_fatal_seconds`; a successful poll
resets `adc_stale_started_at` to unset. -/
theorem claim_C5_staleness (cfg : Config) (max_age_seconds now : ℤ)
    (payload : CachePayload) (s : PumpState) (m : String) (signals : Signals)
    (hage : payload.age > max_age_seconds) :
    CachedSignalReader.read_signals max_age_seconds payload
        = Except.error ("ADC cache stale")
    ∧ ((increment_adc_stale cfg now s m).1).adc_stale_started_at
        = some (s.adc_stale_started_at.getD now)
    ∧ ((increment_adc_stale cfg now s m).1).current_state = PState.notPumping
    ∧ (EventType.pumpStop ∈ ((increment_adc_stale cfg now s m).2.1).map PumpEvent.event_type
        ↔ (s.current_state = PState.pumping ∨ s.current_state = PState.manualPumping))
    ∧ (now - (s.adc_stale_started_at.getD now) ≥ cfg.adc_stale_fatal_seconds →
        ((increment_adc_stale cfg now s m).1).fatal_error = true)
    ∧ ((poll cfg now s (PollInput.ok signals)).1).adc_stale_started_at = none := by
  refine ⟨?_, increment_adc_stale_adc cfg now s m,
    increment_adc_stale_current_state cfg now s m, ?_,
    increment_adc_stale_fire cfg now s m, ?_⟩
  · unfold CachedSignalReader.read_signals
    rw [if_pos hage]
  · rw [increment_adc_stale_events_types]
    constructor
    · intro hmem
      rcases List.mem_append.mp hmem with h1 | h1
      · by_cases hact : s.current_state = PState.pumping
            ∨ s.current_state = PState.manualPumping
        · exact hact
        · rw [if_neg hact] at h1
          simp at h1
      · split at h1 <;> simp_all
    · intro hact
      exact List.mem_append.mpr (Or.inl (by rw [if_pos hact]; simp))
  · exact apply_signals_adc_none cfg now { s with adc_stale_started_at := none } signals rfl

theorem claim_C5_staleness_witness :
    ({ age := 5, signals := none, volts := none, vacuum_volts := none } : CachePayload).age
        > (2 : ℤ)
    ∧ (CachedSignalReader.read_signals 2
          { age := 5, signals := none, volts := none, vacuum_volts := none }
        = Except.error ("ADC cache stale")
      ∧ ((increment_adc_stale cfg_default 3 pumping_state ("stale")).1).adc_stale_started_at
        = some (pumping_state.adc_stale_started_at.getD 3)
      ∧ ((increment_adc_stale cfg_default 3 pumping_state ("stale")).1).current_state
        = PState.notPumping
      ∧ (EventType.pumpStop
          ∈ ((increment_adc_stale cfg_default 3 pumping_state ("stale")).2.1).map
              PumpEvent.event_type
        ↔ (pumping_state.current_state = PState.pumping
            ∨ pumping_state.current_state = PState.manualPumping))
      ∧ ((3 : ℤ) - (pumping_state.adc_stale_started_at.getD 3)
            ≥ cfg_default.adc_stale_fatal_seconds →
          ((increment_adc_stale cfg_default 3 pumping_state ("stale")).1).fatal_error = true)
      ∧ ((poll cfg_default 3 pumping_state (PollInput.ok signals000)).1).adc_stale_started_at
        = none) :=
  ⟨by decide,
   claim_C5_staleness cfg_default 2 3
     { age := 5, signals := none, volts := none, vacuum_volts := none }
     pumping_state ("stale") signals000 (by decide)⟩

/-- C6: for each control-hold channel, the action fires exactly once per
continuous high period that lasts at least `control_hold_seconds` (at most
once on any all-high run, never again while `fired` is set), a low sample
fully re-arms the timer, an action fires only from an armed un-fired timer
whose hold has elapsed, the controller steps the three channels
independently, and the high-low-high double-hold scenario fires twice. -/
theorem claim_C6_control_holds (hold_seconds now t : ℤ) (h : HoldState)
    (signals : Signals) (c : ControlHolds) (ts trace : List (ℤ × Bool))
    (hall : ∀ x ∈ ts, x.2 = true)
    (hdur : ∃ u ∈ t :: ts.map Prod.fst, u - t ≥ hold_seconds)
    (htrace : ∀ x ∈ trace, x.2 = true) :
    (h.fired = true → control_hold_step hold_seconds now true h
        = ({ hold_start := some (h.hold_start.getD now), fired := true }, false))
    ∧ control_hold_step hold_seconds now false h
        = ({ hold_start := none, fired := false }, false)
    ∧ ((control_hold_step hold_seconds now true h).2 = true
        ↔ h.fired = false ∧ now - (h.hold_start.getD now) ≥ hold_seconds)
    ∧ (run_hold hold_seconds trace h).2 ≤ (if h.fired then 0 else 1)
    ∧ (run_hold hold_seconds ((t, true) :: ts) { hold_start := none, fired := false }).2 = 1
    ∧ ((handle_control_holds hold_seconds now signals c).1).service_on
        = (control_hold_step hold_seconds now signals.service_on c.service_on).1
    ∧ ((handle_control_holds hold_seconds now signals c).1).service_off
        = (control_hold_step hold_seconds now signals.service_off c.service_off).1
    ∧ ((handle_control_holds hold_seconds now signals c).1).clear_fatal
        = (control_hold_step hold_seconds now signals.clear_fatal c.clear_fatal).1
    ∧ (run_hold 5 [(0, true), (5, true), (6, false), (7, true), (12, true)]
        { hold_start := none, fired := false }).2 = 2 := by
  refine ⟨control_hold_step_high_fired hold_seconds now h, control_hold_step_low _ _ _,
    ?_, run_hold_all_high_le_one hold_seconds trace h htrace,
    run_hold_once hold_seconds t ts hall hdur, rfl, rfl, rfl, by decide⟩
  rw [control_hold_step_fires_iff]
  simp

theorem claim_C6_control_holds_witness :
    (∀ x ∈ [((5 : ℤ), true)], x.2 = true)
    ∧ (∃ u ∈ (0 : ℤ) :: ([((5 : ℤ), true)].map Prod.fst), u - 0 ≥ (5 : ℤ))
    ∧ (∀ x ∈ ([] : List (ℤ × Bool)), x.2 = true)
    ∧ ((run_hold 5 [((0 : ℤ), true), ((5 : ℤ), true)]
          { hold_start := none, fired := false }).2 = 1
      ∧ (run_hold 5 [(0, true), (5, true), (6, false), (7, true), (12, true)]
          { hold_start := none, fired := false }).2 = 2) :=
  ⟨by decide, by decide, by decide,
   (claim_C6_control_holds 5 0 0 { hold_start := none, fired := false } signals000
      { service_on := { hold_start := none, fired := false },
        service_off := { hold_start := none, fired := false },
        clear_fatal := { hold_start := none, fired := false } }
      [((5 : ℤ), true)] [] (by decide) (by decide) (by decide)).2.2.2.2.1,
   (claim_C6_control_holds 5 0 0 { hold_start := none, fired := false } signals000
      { service_on := { hold_start := none, fired := false },
        service_off := { hold_start := none, fired := false },
        clear_fatal := { hold_start := none, fired := false } }
      [((5 : ℤ), true)] [] (by decide) (by decide) (by decide)).2.2.2.2.2.2.2.2⟩

/-- C7 counterexample: on inputs `010` while `Pumping`, `_apply_signals`
records a warning (the log output is non-empty) while `error_started_at` is
unset, yet after the step `error_started_at` is still unset — refuting the
claim that every error or warning recorded by the signal-application step
stamps `error_started_at` when it was unset (this branch resets the timer and
records the warning through `_record_error`, which never stamps). -/
theorem claim_C7_counterexample :
    pumping_state.error_started_at = none
    ∧ (apply_signals cfg_default 0 pumping_state signals010).2.2 ≠ []
    ∧ ((apply_signals cfg_default 0 pumping_state signals010).1).error_started_at
        = none := by decide

/-- C7 (amended): errors and warnings recorded through the escalation helper
`_increment_error` (inputs 111, 101 and 110 in every state, and 100 while
Pumping or ManualPumping) stamp `error_started_at` with the current time if
it was unset; the fatal path triggers when the span from `error_started_at`
to now reaches `error_threshold` (both inside the helper and at the top of
`_apply_signals`); the combinations 000 and 011 reset the error timer to
unset, and the 010-while-Pumping and 011 warnings are recorded with the
timer reset rather than stamped — the per-combination outcome is exactly
`esa_table`. -/
theorem claim_C7_amended (cfg : Config) (now : ℤ) (s s2 : PumpState)
    (signals signals2 : Signals) (message : Option String)
    (hf : s.fatal_error = false) (hg : error_guard cfg now s = false)
    (hth : 0 < cfg.error_threshold)
    (hg2 : error_guard cfg now s2 = true) :
    ((increment_error cfg now s message).1).error_started_at
        = some (s.error_started_at.getD now)
    ∧ (now - (s.error_started_at.getD now) ≥ cfg.error_threshold →
        ((increment_error cfg now s message).1).fatal_error = true)
    ∧ ((apply_signals cfg now s2 signals2).1).fatal_error = true
    ∧ ((apply_signals cfg now s signals).1).error_started_at
        = esa_table signals.tank_full signals.manual_start signals.tank_empty
            s.current_state now s.error_started_at := by
  refine ⟨increment_error_error_started_at cfg now s message, ?_,
    apply_signals_guard_fatal cfg now s2 signals2 hg2,
    (apply_signals_spec cfg now s signals hf hg hth).2.2.2.2.1⟩
  intro hfire
  rw [increment_error_fatal_error, if_pos (by omega)]

theorem claim_C7_amended_witness :
    pumping_state.fatal_error = false
    ∧ error_guard cfg_default 50 pumping_state = false
    ∧ (0 : ℤ) < cfg_default.error_threshold
    ∧ error_guard cfg_default 50 { pumping_state with error_started_at := some 0 } = true
    ∧ (((increment_error cfg_default 50 pumping_state none).1).error_started_at
        = some (pumping_state.error_started_at.getD 50)
      ∧ ((apply_signals cfg_default 50 pumping_state signals010).1).error_started_at
        = esa_table signals010.tank_full signals010.manual_start signals010.tank_empty
            pumping_state.current_state 50 pumping_state.error_started_at) :=
  ⟨rfl, rfl, by decide, by decide,
   (claim_C7_amended cfg_default 50 pumping_state
      { pumping_state with error_started_at := some 0 } signals010 signals010 none
      rfl rfl (by decide) (by decide)).1,
   (claim_C7_amended cfg_default 50 pumping_state
      { pumping_state with error_started_at := some 0 } signals010 signals010 none
      rfl rfl (by decide) (by decide)).2.2.2⟩

/-- C8 counterexample: on inputs `001` with `current_state = NotPumping` and a
`pump_end_time` already present (`some 5`), the step overwrites it with the
current time (`some 100`) — refuting the claim that a previously present
`pump_end_time` is left unchanged (the source assigns
`self.state.pump_end_time = time.time()` unconditionally in that branch). -/
theorem claim_C8_counterexample :
    preset_end_state.current_state = PState.notPumping
    ∧ preset_end_state.pump_end_time = some 5
    ∧ ((apply_signals cfg_default 100 preset_end_state signals001).1).pump_end_time
        = some 100 := by decide

/-- C8 (amended): on inputs `(tank_full=0, manual_start=0, tank_empty=1)` with
`current_state = NotPumping` (non-fatal, error overlay not firing), the
signal-application step sets `pump_end_time` to the current time
unconditionally, whether or not a value was previously present. -/
theorem claim_C8_amended (cfg : Config) (now : ℤ) (s : PumpState) (signals : Signals)
    (hf : s.fatal_error = false) (hg : error_guard cfg now s = false)
    (hth : 0 < cfg.error_threshold)
    (hcs : s.current_state = PState.notPumping)
    (h1 : signals.tank_full = false) (h2 : signals.manual_start = false)
    (h3 : signals.tank_empty = true) :
    ((apply_signals cfg now s signals).1).pump_end_time = some now := by
  have h := (apply_signals_spec cfg now s signals hf hg hth).2.2.2.2.2
  rw [h1, h2, h3, hcs] at h
  simpa [pet_table] using h

theorem claim_C8_amended_witness :
    preset_end_state.fatal_error = false
    ∧ error_guard cfg_default 100 preset_end_state = false
    ∧ (0 : ℤ) < cfg_default.error_threshold
    ∧ preset_end_state.current_state = PState.notPumping
    ∧ signals001.tank_full = false
    ∧ signals001.manual_start = false
    ∧ signals001.tank_empty = true
    ∧ ((apply_signals cfg_default 100 preset_end_state signals001).1).pump_end_time
        = some 100 :=
  ⟨rfl, rfl, by decide, rfl, rfl, rfl, rfl,
   claim_C8_amended cfg_default 100 preset_end_state signals001
     rfl rfl (by decide) rfl rfl rfl rfl⟩

/-- C10: a fresh payload whose `signals`/`volts` dicts are present and whose
`volts` carries the three pump channels is accepted even when the control
channels `service_on`, `service_off`, `clear_fatal` are absent — they come
back as `false` with voltage `0` — whereas a fresh payload missing the
voltage entry for `tank_full`, `manual_start` or `tank_empty` fails with the
staleness error. -/
theorem claim_C10_reader_defaults (max_age_seconds : ℤ) (payload : CachePayload)
    (signals : List (String × Bool)) (volts : List (String × ℤ))
    (hage : ¬ payload.age > max_age_seconds)
    (hsig : payload.signals = some signals)
    (hvol : payload.volts = some volts) :
    (((volts.lookup ("tank_full")).isSome ∧ (volts.lookup ("manual_start")).isSome
        ∧ (volts.lookup ("tank_empty")).isSome) →
      ∃ s2 v2, CachedSignalReader.read_signals max_age_seconds payload
          = Except.ok (s2, v2)
        ∧ s2.lookup ("service_on") = some ((signals.lookup ("service_on")).getD false)
        ∧ s2.lookup ("service_off") = some ((signals.lookup ("service_off")).getD false)
        ∧ s2.lookup ("clear_fatal") = some ((signals.lookup ("clear_fatal")).getD false)
        ∧ v2.lookup ("service_on") = some ((volts.lookup ("service_on")).getD 0)
        ∧ v2.lookup ("service_off") = some ((volts.lookup ("service_off")).getD 0)
        ∧ v2.lookup ("clear_fatal") = some ((volts.lookup ("clear_fatal")).getD 0))
    ∧ ((volts.lookup ("tank_full") = none ∨ volts.lookup ("manual_start") = none
        ∨ volts.lookup ("tank_empty") = none) →
      CachedSignalReader.read_signals max_age_seconds payload
        = Except.error ("ADC cache missing volts for a pump channel")) := by
  constructor
  · intro hkeys
    obtain ⟨h1, h2, h3⟩ := hkeys
    unfold CachedSignalReader.read_signals
    rw [if_neg hage, hsig, hvol]
    dsimp only
    rw [if_neg (by simp [h1, h2, h3])]
    refine ⟨_, _, rfl, ?_, ?_, ?_, ?_, ?_, ?_⟩ <;>
      rcases hvac : payload.vacuum_volts with _ | v <;>
      simp [hvac, dict_set_lookup_other, dict_setdefault_lookup_other,
        dict_setdefault_lookup_self]
  · intro hmiss
    unfold CachedSignalReader.read_signals
    rw [if_neg hage, hsig, hvol]
    dsimp only
    rw [if_pos (by rcases hmiss with h | h | h <;> simp [h])]

/-- A fresh, well-formed cache payload that omits the three control channels. -/
def fresh_signals_dict : List (String × Bool) :=
  [(("tank_full"), true), (("manual_start"), false), (("tank_empty"), false)]

def fresh_volts_dict : List (String × ℤ) :=
  [(("tank_full"), 3), (("manual_start"), 0), (("tank_empty"), 0)]

def fresh_payload : CachePayload :=
  { age := 1,
    signals := some fresh_signals_dict,
    volts := some fresh_volts_dict,
    vacuum_volts := some 2 }

theorem claim_C10_reader_defaults_witness :
    ¬ fresh_payload.age > (2 : ℤ)
    ∧ fresh_payload.signals = some fresh_signals_dict
    ∧ fresh_payload.volts = some fresh_volts_dict
    ∧ ((((fresh_volts_dict.lookup ("tank_full")).isSome
        ∧ (fresh_volts_dict.lookup ("manual_start")).isSome
        ∧ (fresh_volts_dict.lookup ("tank_empty")).isSome) →
        ∃ s2 v2, CachedSignalReader.read_signals 2 fresh_payload = Except.ok (s2, v2)
          ∧ s2.lookup ("service_on")
              = some ((fresh_signals_dict.lookup ("service_on")).getD false)
          ∧ s2.lookup ("service_off")
              = some ((fresh_signals_dict.lookup ("service_off")).getD false)
          ∧ s2.lookup ("clear_fatal")
              = some ((fresh_signals_dict.lookup ("clear_fatal")).getD false)
          ∧ v2.lookup ("service_on")
              = some ((fresh_volts_dict.lookup ("service_on")).getD 0)
          ∧ v2.lookup ("service_off")
              = some ((fresh_volts_dict.lookup ("service_off")).getD 0)
          ∧ v2.lookup ("clear_fatal")
              = some ((fresh_volts_dict.lookup ("clear_fatal")).getD 0))
      ∧ ((fresh_volts_dict.lookup ("tank_full") = none
          ∨ fresh_volts_dict.lookup ("manual_start") = none
          ∨ fresh_volts_dict.lookup ("tank_empty") = none) →
        CachedSignalReader.read_signals 2 fresh_payload
          = Except.error ("ADC cache missing volts for a pump channel"))) :=
  ⟨by decide, rfl, rfl,
   claim_C10_reader_defaults 2 fresh_payload fresh_signals_dict fresh_volts_dict
     (by decide) rfl rfl⟩
